import Mathlib

/-!
Shallow embedding of the Thorlabs PM100USB powermeter driver
(pymeasure/instruments/thorlabs/thorlabspm100usb.py) and proofs about it.

The driver is a thin protocol-mapping layer: each accessor sends one SCPI
command string and parses the textual reply.  We embed each method as a pure
Lean function from the driver state and the scripted device replies to the
commands it sends, the log entries it emits, and its result (or the Python
exception it raises).  Machine integers are Nat/Int; parsed scalars are
rationals standing in for Python floats.
-/

/-- Kinds of Python exceptions the embedded methods can raise. -/
inductive PyError where
  /-- ValueError, e.g. from tuple unpacking of a wrong-length sequence or a
  failed int() conversion. -/
  | valueError : PyError
  /-- IndexError from indexing an empty list. -/
  | indexError : PyError
  /-- AttributeError from assigning to a read-only property. -/
  | attributeError : PyError
  /-- UnboundLocalError from reading a local variable before assignment. -/
  | unboundLocalError : PyError
  /-- A plain Exception raised with a message. -/
  | exception (msg : String) : PyError
  /-- The RangeException or ValueError raised by the validation helpers. -/
  | rangeError : PyError
  deriving DecidableEq, Repr

/-- A Python runtime value as it appears in this driver: the parsed scalars
from the adapter (floats, modelled as rationals), raw strings, ints, and
None. -/
inductive PyVal where
  | int (n : Int) : PyVal
  | float (q : Rat) : PyVal
  | str (s : String) : PyVal
  | none : PyVal
  deriving DecidableEq, Repr

/-- The Python expression `v is 1` (identity comparison against the int
literal 1).  CPython interns small ints, so for an int value this behaves as
equality; a float or string object is never the same object as the int
literal, so the comparison is False regardless of numeric value. -/
def pyIsLitOne : PyVal → Bool
  | PyVal.int n => n == 1
  | _ => false

/-- The Python expression `v != 0` comparing a value against the int literal
0.  Ints and floats compare numerically; a str is never equal to an int in
Python, so for a string the comparison is always True. -/
def pyNeZero : PyVal → Bool
  | PyVal.int n => n != 0
  | PyVal.float q => q != 0
  | PyVal.str _ => true
  | PyVal.none => true

/-- Python str.split with a one-character separator, written structurally
over the character list (String.splitOn of core Lean is not used because
its recursion is position-based).  Splitting the empty string yields one
empty field, as in Python. -/
def pySplitAux (sep : Char) : List Char → List Char → List String
  | [], acc => [String.mk acc.reverse]
  | c :: rest, acc =>
    if c = sep then String.mk acc.reverse :: pySplitAux sep rest []
    else pySplitAux sep rest (c :: acc)

/-- Python s.split(sep) for a one-character separator. -/
def pySplit (sep : Char) (s : String) : List String :=
  pySplitAux sep s.toList []

/-- The numeric value of a decimal digit character, none for anything
else. -/
def charDigit (c : Char) : Option Nat :=
  if '0' ≤ c ∧ c ≤ '9' then some (c.toNat - '0'.toNat) else none

/-- Accumulate decimal digits into a natural number; none on the first
non-digit. -/
def digitsToNatAux : List Char → Nat → Option Nat
  | [], acc => some acc
  | c :: rest, acc =>
    match charDigit c with
    | some d => digitsToNatAux rest (acc * 10 + d)
    | none => none

/-- Parse a nonempty all-digit character list as a natural number. -/
def digitsToNat : List Char → Option Nat
  | [] => none
  | l => digitsToNatAux l 0

/-- Modelled from the spec: the argument-validation helpers are an external
collaborator ("argument validation helpers (range/set membership checks)...
assumed as already-correct library services").  strict_range returns the
value unchanged when it lies within the inclusive range and raises
otherwise. -/
def strict_range (value : Rat) (lo hi : Rat) : Except PyError Rat :=
  if lo ≤ value ∧ value ≤ hi then Except.ok value else Except.error PyError.rangeError

/-- Parse a decimal literal (optional minus sign, digits, optional fraction)
into a rational, as Python float() does on the strings this driver sees. -/
def parseFloat (s : String) : Option Rat :=
  let core : String → Option Rat := fun t =>
    match pySplit '.' t with
    | [a] => (digitsToNat a.toList).map (fun m => (m : Rat))
    | [a, b] =>
      match digitsToNat a.toList, digitsToNat b.toList with
      | some m, some f => some ((m : Rat) + (f : Rat) / ((10 : Rat) ^ b.length))
      | _, _ => none
    | _ => none
  match s.toList with
  | '-' :: rest => (core (String.mk rest)).map (fun q => -q)
  | _ => core s

/-- Modelled from the spec: the external adapter provides "scalar-list
parsing" (Instrument.values).  The comma-separated reply is split and each
field is converted to a Python float where possible; fields that fail the
conversion are left as strings.  So every numeric field comes back as a
float object, never an int. -/
def valuesParse (reply : String) : List PyVal :=
  (pySplit ',' reply).map (fun s =>
    match parseFloat s with
    | some q => PyVal.float q
    | none => PyVal.str s)

/-- The Python expression `xs[0]`: first element, or IndexError when the
list is empty. -/
def listFirst (xs : List PyVal) : Except PyError PyVal :=
  match xs with
  | [] => Except.error PyError.indexError
  | v :: _ => Except.ok v

/-- Binary digits of a natural number, most significant first, with explicit
fuel so the definition is structural (the empty list for 0).  Fuel n is
always enough for argument n. -/
def binDigitsAux : Nat → Nat → List Char
  | 0, _ => []
  | fuel + 1, n =>
    if n = 0 then []
    else binDigitsAux fuel (n / 2) ++ [if n % 2 = 1 then '1' else '0']

/-- Binary digit string of a natural number as Python format(n, "b")
produces it: "0" for 0, otherwise the digits most significant first. -/
def natBinStr (n : Nat) : String :=
  if n = 0 then "0" else String.mk (binDigitsAux n n)

/-- The Python expression format(n, "09b") (the 09b format spec used in
sensor()): binary representation padded with zeros to a minimum width of 9.
For a negative number the minus sign counts toward the width and the zero
fill goes between the sign and the digits. -/
def pyFormat09b (n : Int) : String :=
  if n < 0 then
    let ds := natBinStr n.natAbs
    "-" ++ (String.mk (List.replicate (8 - ds.length) '0') ++ ds)
  else
    let ds := natBinStr n.toNat
    String.mk (List.replicate (9 - ds.length) '0') ++ ds

/-- The six capability flags that sensor() stores on the instrument (the
three remaining positions of the 9-way unpacking are bound to throwaway
locals). -/
structure SensorFlags where
  is_power : Bool
  is_energy : Bool
  resp_settable : Bool
  wavelength_settable : Bool
  tau_settable : Bool
  temperature_sens : Bool
  deriving DecidableEq, Repr

/-- The 9-way tuple unpacking at the end of sensor():
is_power, is_energy, d4, d8, resp_settable, wavelength_settable,
tau_settable, d128, temperature_sens = flags.  A sequence of any other
length raises ValueError. -/
def unpackFlags : List Bool → Except PyError SensorFlags
  | [b1, b2, _d4, _d8, b16, b32, b64, _d128, b256] =>
    Except.ok ⟨b1, b2, b16, b32, b64, b256⟩
  | _ => Except.error PyError.valueError

/-- The flag-decoding tail of sensor(): format the integer as 09b binary,
map each character to (c == the digit one), reverse to account for bit
order, and unpack the nine positions. -/
def decodeFlags (n : Int) : Except PyError SensorFlags :=
  unpackFlags (((pyFormat09b n).toList.map (fun c => c == '1')).reverse)

/-- The capability flags the bit positions name: bit 0 is is_power, bit 1 is
is_energy, bit 4 is resp_settable, bit 5 is wavelength_settable, bit 6 is
tau_settable, bit 8 is temperature_sens. -/
def expectedFlags (n : Nat) : SensorFlags :=
  ⟨n.testBit 0, n.testBit 1, n.testBit 4, n.testBit 5, n.testBit 6, n.testBit 8⟩

/-- The instrument name passed to the Instrument constructor. -/
def instrumentName : String := "ThorlabsPM100USB powermeter"

/-- The per-session driver state: the sensor identity strings and capability
flags that sensor() assigns once during construction. -/
structure PMState where
  sensor_name : String
  sensor_sn : String
  sensor_cal_msg : String
  sensor_type : String
  sensor_subtype : String
  is_power : Bool
  is_energy : Bool
  resp_settable : Bool
  wavelength_settable : Bool
  tau_settable : Bool
  temperature_sens : Bool
  deriving DecidableEq, Repr

/-- Log levels used by the driver (log.warning in check_errors, log.info in
set_zero). -/
inductive LogLevel where
  | info : LogLevel
  | warning : LogLevel
  deriving DecidableEq, Repr

/-- One emitted log record. -/
structure LogEntry where
  level : LogLevel
  msg : String
  deriving DecidableEq, Repr

/-- The Python expression int(s): parse the (possibly signed) digit string,
ValueError on anything else.  Surrounding whitespace is stripped as int()
does. -/
def pyInt (s : String) : Except PyError Int :=
  let stripped := ((s.toList.dropWhile (fun c => c = ' ')).reverse.dropWhile
    (fun c => c = ' ')).reverse
  let parsed : Option Int :=
    match stripped with
    | '-' :: rest => (digitsToNat rest).map (fun n => -(n : Int))
    | '+' :: rest => (digitsToNat rest).map (fun n => (n : Int))
    | l => (digitsToNat l).map (fun n => (n : Int))
  match parsed with
  | some n => Except.ok n
  | Option.none => Except.error PyError.valueError

/-- check_errors: ask SYSTem:ERRor?, split the reply on the comma, unpack
into (code, message) — ValueError unless exactly two fields — then compare
the code against the int literal 0 and log a warning when they differ.  The
code is a str fresh from split, so the comparison `code != 0` is a
str-vs-int comparison. -/
def check_errors (reply : String) : Except PyError (List LogEntry) :=
  match pySplit ',' reply with
  | [code, message] =>
    Except.ok
      (if pyNeZero (PyVal.str code) then
        [⟨LogLevel.warning,
          instrumentName ++ ": " ++ message ++ " (Error Code: " ++ code ++ ")"⟩]
      else [])
  | _ => Except.error PyError.valueError

/-- sensor(): ask SYST:SENSOR:IDN?, split on commas, store fields 0..4 as
the identity strings (IndexError if fewer than five fields), take the last
field as the flag string, convert it with int(), format as 09b binary and
decode the capability flags. -/
def sensor (reply : String) : Except PyError PMState :=
  let response := pySplit ',' reply
  if h : 5 ≤ response.length then
    let flagsStr := response.getLast (List.ne_nil_of_length_pos (by omega))
    match pyInt flagsStr with
    | Except.error e => Except.error e
    | Except.ok n =>
      match decodeFlags n with
      | Except.error e => Except.error e
      | Except.ok f =>
        Except.ok
          { sensor_name := response[0], sensor_sn := response[1],
            sensor_cal_msg := response[2], sensor_type := response[3],
            sensor_subtype := response[4],
            is_power := f.is_power, is_energy := f.is_energy,
            resp_settable := f.resp_settable,
            wavelength_settable := f.wavelength_settable,
            tau_settable := f.tau_settable,
            temperature_sens := f.temperature_sens }
  else Except.error PyError.indexError

/-- A measurement accessor returns the list of commands it sent and the
value produced, or the exception raised. -/
abbrev MeasResult := Except PyError (List String × PyVal)

/-- The power property: guarded by is_power, sends MEAS:POWer? and returns
the first parsed scalar; on a non-power sensor it raises. -/
def power (st : PMState) (reply : String) : MeasResult :=
  if st.is_power then
    (listFirst (valuesParse reply)).map (fun v => (["MEAS:POWer?"], v))
  else Except.error (PyError.exception (st.sensor_name ++ " is not a power sensor"))

/-- The current property: guarded by is_power, sends MEAS:CURRent?. -/
def current (st : PMState) (reply : String) : MeasResult :=
  if st.is_power then
    (listFirst (valuesParse reply)).map (fun v => (["MEAS:CURRent?"], v))
  else Except.error (PyError.exception (st.sensor_name ++ " is not a power sensor"))

/-- The voltage property: guarded by is_power, sends MEAS:VOLTage?. -/
def voltage (st : PMState) (reply : String) : MeasResult :=
  if st.is_power then
    (listFirst (valuesParse reply)).map (fun v => (["MEAS:VOLTage?"], v))
  else Except.error (PyError.exception (st.sensor_name ++ " is not a power sensor"))

/-- The energy property: guarded by is_energy, sends MEAS:ENERgy?; on a
non-energy sensor it raises. -/
def energy (st : PMState) (reply : String) : MeasResult :=
  if st.is_energy then
    (listFirst (valuesParse reply)).map (fun v => (["MEAS:ENERgy?"], v))
  else Except.error (PyError.exception (st.sensor_name ++ " is not an energy sensor"))

/-- The frequency property: guarded by is_energy, sends MEAS:FREQuency?. -/
def frequency (st : PMState) (reply : String) : MeasResult :=
  if st.is_energy then
    (listFirst (valuesParse reply)).map (fun v => (["MEAS:FREQuency?"], v))
  else Except.error (PyError.exception (st.sensor_name ++ " is not an energy sensor"))

/-- The power_density property: guarded by is_power, sends MEAS:PDENsity?. -/
def power_density (st : PMState) (reply : String) : MeasResult :=
  if st.is_power then
    (listFirst (valuesParse reply)).map (fun v => (["MEAS:PDENsity?"], v))
  else Except.error (PyError.exception (st.sensor_name ++ " is not a power sensor"))

/-- The energy_density property: guarded by is_energy, sends
MEAS:EDENsity? (note the source message reads "a energy sensor"). -/
def energy_density (st : PMState) (reply : String) : MeasResult :=
  if st.is_energy then
    (listFirst (valuesParse reply)).map (fun v => (["MEAS:EDENsity?"], v))
  else Except.error (PyError.exception (st.sensor_name ++ " is not a energy sensor"))

/-- The resistance property: an if with no else — when temperature_sens is
false the method body falls through and Python returns None, sending no
command and raising nothing. -/
def resistance (st : PMState) (reply : String) : MeasResult :=
  if st.temperature_sens then
    (listFirst (valuesParse reply)).map (fun v => (["MEAS:RESistance?"], v))
  else Except.ok ([], PyVal.none)

/-- The temperature property: an if with no else — when temperature_sens is
false the method body falls through and Python returns None, sending no
command and raising nothing. -/
def temperature (st : PMState) (reply : String) : MeasResult :=
  if st.temperature_sens then
    (listFirst (valuesParse reply)).map (fun v => (["MEAS:TEMPerature?"], v))
  else Except.ok ([], PyVal.none)

/-- The wavelength getter: sends SENSE:CORR:WAV?, indexes the parsed reply,
but the method body has no return statement, so the value is discarded and
Python returns None. -/
def wavelength_get (reply : String) : MeasResult :=
  match listFirst (valuesParse reply) with
  | Except.error e => Except.error e
  | Except.ok _v => Except.ok (["SENSE:CORR:WAV?"], PyVal.none)

/-- Placeholder rendering for the %g format of a float command argument (the
exact digits of %g formatting are irrelevant to every property proved
here). -/
def fmtG (q : Rat) : String := toString q

/-- The wavelength setter.  Its first statement is
wavelength = strict_range(wavelength, (wavelength_min, wavelength_max)):
the right-hand `wavelength` is the local being assigned, not the parameter
`val`, so evaluating the first argument raises UnboundLocalError before any
query or write happens.  The rest of the body (validation, the
wavelength_settable guard, the SENSE:CORR:WAV write) is dead code. -/
def wavelength_set (st : PMState) (wmin wmax : Rat) (val : Rat) :
    Except PyError (List String) := do
  let wavelength ← (Except.error PyError.unboundLocalError : Except PyError Rat)
  let _wavelength ← strict_range wavelength wmin wmax
  if st.wavelength_settable then
    Except.ok ["SENSE:CORR:WAV " ++ fmtG val]
  else
    Except.error (PyError.exception ("Wavelength is not settable for " ++ st.sensor_name))

/-- measure_power: assign the wavelength (running the setter), then read the
power property. -/
def measure_power (st : PMState) (wmin wmax wl : Rat) (powerReply : String) :
    MeasResult := do
  let cmds ← wavelength_set st wmin wmax wl
  let r ← power st powerReply
  Except.ok (cmds ++ r.fst, r.snd)

/-- One iteration of the set_zero polling loop as the device scripts it: the
reply to the SENS:CORR:COLLect:ZERO:STATe? query and the wall-clock value
time.time() would return inside that iteration. -/
structure PollStep where
  reply : String
  now : Rat
  deriving DecidableEq, Repr

/-- Outcome of set_zero against a finite script of poll steps. -/
inductive ZeroResult where
  /-- The while loop exited; commands sent, logs emitted, sleeps taken. -/
  | finished (cmds : List String) (logs : List LogEntry) (sleeps : Nat) : ZeroResult
  /-- A Python exception escaped the loop. -/
  | error (e : PyError) (cmds : List String) (logs : List LogEntry) (sleeps : Nat) : ZeroResult
  /-- The script ran out while the loop was still running. -/
  | stuck (cmds : List String) (logs : List LogEntry) (sleeps : Nat) : ZeroResult
  deriving DecidableEq, Repr

/-- The while loop of set_zero: each iteration queries the zero state,
checks `values(...)[0] is 1`, and if looping either aborts-and-logs (past
the timeout) or sleeps 0.1 s. -/
def setZeroLoop (name : String) (start timeout : Rat) :
    List PollStep → List String → List LogEntry → Nat → ZeroResult
  | [], cmds, logs, slp => ZeroResult.stuck cmds logs slp
  | s :: rest, cmds, logs, slp =>
    let cmds := cmds ++ ["SENS:CORR:COLLect:ZERO:STATe?"]
    match listFirst (valuesParse s.reply) with
    | Except.error e => ZeroResult.error e cmds logs slp
    | Except.ok v =>
      if pyIsLitOne v then
        if s.now > start + timeout then
          setZeroLoop name start timeout rest
            (cmds ++ ["SENS:CORR:COLLect:ZERO:ABORt"])
            (logs ++ [⟨LogLevel.info,
              "Aborted zero adjustment for " ++ name ++ " due to timeout."⟩])
            slp
        else
          setZeroLoop name start timeout rest cmds logs (slp + 1)
      else ZeroResult.finished cmds logs slp

/-- set_zero: write SENS:CORR:COLLect:ZERO:INITiate, record the start time,
then run the polling loop. -/
def set_zero (st : PMState) (start timeout : Rat) (steps : List PollStep) :
    ZeroResult :=
  setZeroLoop st.sensor_name start timeout steps
    ["SENS:CORR:COLLect:ZERO:INITiate"] [] 0

/-- The driver constructor after the Instrument base setup: run
check_errors, run sensor(), and if is_power assign the Power/Current/
Voltage sub-objects.  The names power, current and voltage are class
properties with a getter and no setter — data descriptors — so the instance
assignment self.power = ... raises AttributeError. -/
def pm_init (errReply idnReply : String) : Except PyError PMState :=
  match check_errors errReply with
  | Except.error e => Except.error e
  | Except.ok _logs =>
    match sensor idnReply with
    | Except.error e => Except.error e
    | Except.ok st =>
      if st.is_power then
        Except.error PyError.attributeError
      else
        Except.ok st

/-- One driver operation invoked after construction, with the scripted
device data it consumes. -/
inductive Op where
  | opPower (reply : String) : Op
  | opCurrent (reply : String) : Op
  | opVoltage (reply : String) : Op
  | opEnergy (reply : String) : Op
  | opFrequency (reply : String) : Op
  | opPowerDensity (reply : String) : Op
  | opEnergyDensity (reply : String) : Op
  | opResistance (reply : String) : Op
  | opTemperature (reply : String) : Op
  | opWavelengthGet (reply : String) : Op
  | opWavelengthSet (wmin wmax val : Rat) : Op
  | opMeasurePower (wmin wmax wl : Rat) (powerReply : String) : Op
  | opSetZero (start timeout : Rat) (steps : List PollStep) : Op
  | opCheckErrors (reply : String) : Op
  deriving Repr

/-- The observable outcome of one operation. -/
inductive StepOut where
  | meas (r : MeasResult) : StepOut
  | cmds (r : Except PyError (List String)) : StepOut
  | zero (r : ZeroResult) : StepOut
  | logs (r : Except PyError (List LogEntry)) : StepOut
  deriving Repr

/-- Run one operation against the session state.  None of the corresponding
method bodies assigns any instance attribute, so the state component is the
input state for every operation. -/
def step (st : PMState) : Op → PMState × StepOut
  | Op.opPower r => (st, StepOut.meas (power st r))
  | Op.opCurrent r => (st, StepOut.meas (current st r))
  | Op.opVoltage r => (st, StepOut.meas (voltage st r))
  | Op.opEnergy r => (st, StepOut.meas (energy st r))
  | Op.opFrequency r => (st, StepOut.meas (frequency st r))
  | Op.opPowerDensity r => (st, StepOut.meas (power_density st r))
  | Op.opEnergyDensity r => (st, StepOut.meas (energy_density st r))
  | Op.opResistance r => (st, StepOut.meas (resistance st r))
  | Op.opTemperature r => (st, StepOut.meas (temperature st r))
  | Op.opWavelengthGet r => (st, StepOut.meas (wavelength_get r))
  | Op.opWavelengthSet wmin wmax val => (st, StepOut.cmds (wavelength_set st wmin wmax val))
  | Op.opMeasurePower wmin wmax wl pr => (st, StepOut.meas (measure_power st wmin wmax wl pr))
  | Op.opSetZero start timeout steps => (st, StepOut.zero (set_zero st start timeout steps))
  | Op.opCheckErrors r => (st, StepOut.logs (check_errors r))

/-- Run a whole session of operations, threading the state. -/
def runSession (st : PMState) (ops : List Op) : PMState :=
  ops.foldl (fun s op => (step s op).fst) st

/-! Helper lemmas about the binary formatting and the 9-way unpacking. -/

instance {ε α : Type} [DecidableEq ε] [DecidableEq α] : DecidableEq (Except ε α) := fun a b =>
  match a, b with
  | Except.error e, Except.error f => decidable_of_iff (e = f) (by simp)
  | Except.ok x, Except.ok y => decidable_of_iff (x = y) (by simp)
  | Except.error _, Except.ok _ => isFalse (by simp)
  | Except.ok _, Except.error _ => isFalse (by simp)

theorem binDigitsAux_length_le :
    ∀ (fuel n k : Nat), n ≤ fuel →
      (((binDigitsAux fuel n).length ≤ k) ↔ n < 2 ^ k) := by
  intro fuel
  induction fuel with
  | zero =>
    intro n k h
    have hn : n = 0 := Nat.le_zero.mp h
    subst hn
    simp [binDigitsAux]
  | succ fuel ih =>
    intro n k h
    by_cases hn : n = 0
    · subst hn
      simp [binDigitsAux]
    · simp only [binDigitsAux, if_neg hn, List.length_append, List.length_singleton]
      cases k with
      | zero =>
        simp only [pow_zero]
        omega
      | succ k =>
        have h2 : n / 2 ≤ fuel := by omega
        have hrec := ih (n / 2) k h2
        rw [Nat.div_lt_iff_lt_mul (by norm_num)] at hrec
        rw [pow_succ]
        omega

theorem natBinStr_length_le (n k : Nat) (hk : 1 ≤ k) :
    ((natBinStr n).length ≤ k) ↔ n < 2 ^ k := by
  unfold natBinStr
  by_cases hn : n = 0
  · subst hn
    simp only [if_pos rfl]
    constructor
    · intro _
      exact pow_pos (by norm_num) k
    · intro _
      exact hk
  · simp only [if_neg hn]
    have hmk : (String.mk (binDigitsAux n n)).length = (binDigitsAux n n).length := rfl
    rw [hmk]
    exact binDigitsAux_length_le n n k le_rfl

theorem natBinStr_length_pos (n : Nat) : 1 ≤ (natBinStr n).length := by
  unfold natBinStr
  by_cases hn : n = 0
  · subst hn
    simp only [if_pos rfl]
    decide
  · simp only [if_neg hn]
    obtain ⟨fuel, rfl⟩ : ∃ m, n = m + 1 := ⟨n - 1, by omega⟩
    have hmk : (String.mk (binDigitsAux (fuel + 1) (fuel + 1))).length
        = (binDigitsAux (fuel + 1) (fuel + 1)).length := rfl
    rw [hmk]
    simp [binDigitsAux]

theorem pyFormat09b_length_eq_nine_iff (n : Int) :
    (pyFormat09b n).length = 9 ↔ ((0 ≤ n ∧ n < 512) ∨ (-255 ≤ n ∧ n < 0)) := by
  unfold pyFormat09b
  by_cases hneg : n < 0
  · simp only [if_pos hneg]
    have h8 := natBinStr_length_le n.natAbs 8 (by norm_num)
    have hpos := natBinStr_length_pos n.natAbs
    norm_num at h8
    rw [String.length_append, String.length_append]
    have hdash : ("-" : String).length = 1 := rfl
    have hrep : (String.mk (List.replicate (8 - (natBinStr n.natAbs).length) '0')).length
        = 8 - (natBinStr n.natAbs).length := by
      rw [show (String.mk (List.replicate (8 - (natBinStr n.natAbs).length) '0')).length
          = (List.replicate (8 - (natBinStr n.natAbs).length) '0').length from rfl]
      exact List.length_replicate _ _
    rw [hdash, hrep]
    omega
  · simp only [if_neg hneg]
    have h9 := natBinStr_length_le n.toNat 9 (by norm_num)
    have hpos := natBinStr_length_pos n.toNat
    norm_num at h9
    rw [String.length_append]
    have hrep : (String.mk (List.replicate (9 - (natBinStr n.toNat).length) '0')).length
        = 9 - (natBinStr n.toNat).length := by
      rw [show (String.mk (List.replicate (9 - (natBinStr n.toNat).length) '0')).length
          = (List.replicate (9 - (natBinStr n.toNat).length) '0').length from rfl]
      exact List.length_replicate _ _
    rw [hrep]
    omega

theorem unpackFlags_err :
    ∀ (l : List Bool), l.length ≠ 9 → unpackFlags l = Except.error PyError.valueError
  | [], _ => rfl
  | [_], _ => rfl
  | [_, _], _ => rfl
  | [_, _, _], _ => rfl
  | [_, _, _, _], _ => rfl
  | [_, _, _, _, _], _ => rfl
  | [_, _, _, _, _, _], _ => rfl
  | [_, _, _, _, _, _, _], _ => rfl
  | [_, _, _, _, _, _, _, _], _ => rfl
  | [_, _, _, _, _, _, _, _, _], h => absurd rfl h
  | _ :: _ :: _ :: _ :: _ :: _ :: _ :: _ :: _ :: _ :: _, _ => rfl

theorem unpackFlags_ok :
    ∀ (l : List Bool), l.length = 9 → ∃ f, unpackFlags l = Except.ok f
  | [a, b, _, _, e, f, g, _, i], _ => ⟨⟨a, b, e, f, g, i⟩, rfl⟩
  | [], h => by simp at h
  | [_], h => by simp at h
  | [_, _], h => by simp at h
  | [_, _, _], h => by simp at h
  | [_, _, _, _], h => by simp at h
  | [_, _, _, _, _], h => by simp at h
  | [_, _, _, _, _, _], h => by simp at h
  | [_, _, _, _, _, _, _], h => by simp at h
  | [_, _, _, _, _, _, _, _], h => by simp at h
  | _ :: _ :: _ :: _ :: _ :: _ :: _ :: _ :: _ :: _ :: t, h => by
    simp only [List.length_cons] at h
    omega

theorem decodeFlags_list_length (n : Int) :
    (((pyFormat09b n).toList.map (fun c => c == '1')).reverse).length
      = (pyFormat09b n).length := by
  rw [List.length_reverse, List.length_map]
  rfl

theorem decodeFlags_isOk_iff (n : Int) :
    (∃ f, decodeFlags n = Except.ok f) ↔ (pyFormat09b n).length = 9 := by
  unfold decodeFlags
  constructor
  · rintro ⟨f, hf⟩
    by_contra hlen
    rw [unpackFlags_err _ (by rw [decodeFlags_list_length]; exact hlen)] at hf
    exact absurd hf (by simp)
  · intro hlen
    exact unpackFlags_ok _ (by rw [decodeFlags_list_length]; exact hlen)

/-! Concrete sensor states used to instantiate the theorems. -/

/-- A sensor with every capability flag false (e.g. a bare thermopile-free
head): used to exercise the guard branches. -/
def stNone : PMState :=
  ⟨"S120C", "12345", "18-Jun-2020", "Photodiode", "SiPD",
   false, false, false, false, false, false⟩

/-- A power-capable, wavelength-settable sensor state. -/
def stPW : PMState :=
  ⟨"S120C", "12345", "18-Jun-2020", "Photodiode", "SiPD",
   true, false, false, true, false, false⟩

set_option maxRecDepth 100000

/-- Claim C1: for every flag-field integer below 512 (nine bits; the
documented codes sum to 371), decoding in sensor() maps bit 1 to is_power,
bit 2 to is_energy, bit 16 to resp_settable, bit 32 to wavelength_settable,
bit 64 to tau_settable and bit 256 to temperature_sens, each flag true
exactly when the corresponding bit is set; bits 4, 8 and 128 are dropped. -/
theorem C1_flag_decoding :
    ∀ n : Nat, n < 512 → decodeFlags (n : Int) = Except.ok (expectedFlags n) := by
  decide

/-- Witness for C1 at the flag value 371 (the sum of all documented codes):
every named flag comes out true. -/
theorem C1_flag_decoding_witness :
    decodeFlags ((371 : Nat) : Int)
      = Except.ok ⟨true, true, true, true, true, true⟩ := by
  have h := C1_flag_decoding 371 (by decide)
  exact h.trans (by decide)

/-- Claim C10, counterexample: the claim says the unpacking raises for any
negative flag value, but at -5 the formatted 09b string is the nine
characters minus-sign 00000101 (the sign counts toward the zero-padded
width), so the 9-way unpacking succeeds and decoding returns flags instead
of raising. -/
theorem C10_negative_counterexample :
    (pyFormat09b (-5)).length = 9 ∧
      decodeFlags (-5) = Except.ok ⟨true, false, false, false, false, false⟩ := by
  constructor
  · decide
  · decide

/-- Claim C10 (amended): the 9-way unpacking in sensor() succeeds exactly
for flag integers in 0..511 and also for -255..-1 (where the minus sign
occupies one of the nine positions); for 512 and above, and for -256 and
below, the formatted string is longer than nine characters and the
unpacking raises ValueError. -/
theorem C10_decoding_domain :
    ∀ n : Int,
      ((∃ f, decodeFlags n = Except.ok f) ↔
        ((0 ≤ n ∧ n < 512) ∨ (-255 ≤ n ∧ n < 0))) ∧
      ((¬ ((0 ≤ n ∧ n < 512) ∨ (-255 ≤ n ∧ n < 0))) →
        decodeFlags n = Except.error PyError.valueError) := by
  intro n
  constructor
  · exact (decodeFlags_isOk_iff n).trans (pyFormat09b_length_eq_nine_iff n)
  · intro hout
    unfold decodeFlags
    apply unpackFlags_err
    rw [decodeFlags_list_length]
    intro hlen
    exact hout ((pyFormat09b_length_eq_nine_iff n).mp hlen)

/-- Witness for the amended C10 on the raising side: at 1000 (ten binary
digits) decoding raises ValueError. -/
theorem C10_decoding_domain_witness :
    decodeFlags (1000 : Int) = Except.error PyError.valueError :=
  (C10_decoding_domain 1000).2 (by decide)

/-- Claim C2, counterexample: the claim says reading temperature on a
sensor with temperature_sens false raises, but on such a sensor the
temperature property returns None without raising and without sending any
command (the guard is an if with no else). -/
theorem C2_temperature_counterexample :
    stNone.temperature_sens = false ∧
      temperature stNone "25.0" = Except.ok ([], PyVal.none) ∧
      resistance stNone "25.0" = Except.ok ([], PyVal.none) := by
  refine ⟨rfl, ?_, ?_⟩ <;> rfl

/-- Claim C2 (amended): on a sensor lacking the relevant capability the
energy-family accessors (energy, frequency, energy_density) and the
power-family accessors (power, current, voltage, power_density) raise
immediately with a descriptive message, but temperature and resistance do
not raise: they return None and send no command. -/
theorem C2_capability_guards :
    ∀ (st : PMState) (reply : String),
      (st.is_energy = false →
        energy st reply
            = Except.error (PyError.exception (st.sensor_name ++ " is not an energy sensor")) ∧
          frequency st reply
            = Except.error (PyError.exception (st.sensor_name ++ " is not an energy sensor")) ∧
          energy_density st reply
            = Except.error (PyError.exception (st.sensor_name ++ " is not a energy sensor"))) ∧
      (st.is_power = false →
        power st reply
            = Except.error (PyError.exception (st.sensor_name ++ " is not a power sensor")) ∧
          current st reply
            = Except.error (PyError.exception (st.sensor_name ++ " is not a power sensor")) ∧
          voltage st reply
            = Except.error (PyError.exception (st.sensor_name ++ " is not a power sensor")) ∧
          power_density st reply
            = Except.error (PyError.exception (st.sensor_name ++ " is not a power sensor"))) ∧
      (st.temperature_sens = false →
        temperature st reply = Except.ok ([], PyVal.none) ∧
          resistance st reply = Except.ok ([], PyVal.none)) := by
  intro st reply
  refine ⟨fun h => ⟨?_, ?_, ?_⟩, fun h => ⟨?_, ?_, ?_, ?_⟩, fun h => ⟨?_, ?_⟩⟩ <;>
    simp [energy, frequency, energy_density, power, current, voltage,
      power_density, temperature, resistance, h]

/-- Witness for the amended C2 on a concrete capability-free sensor. -/
theorem C2_capability_guards_witness :
    energy stNone "5.0"
        = Except.error (PyError.exception "S120C is not an energy sensor") ∧
      power stNone "5.0"
        = Except.error (PyError.exception "S120C is not a power sensor") ∧
      temperature stNone "5.0" = Except.ok ([], PyVal.none) := by
  have h := C2_capability_guards stNone "5.0"
  exact ⟨((h.1 rfl).1).trans (by decide), ((h.2.1 rfl).1).trans (by decide),
    (h.2.2 rfl).1⟩

/-- Claim C3: at the benign device reply 0,No error the code still emits a
warning, because the unpacked code is the string zero and a Python str
never compares equal to the int 0, so the guard is true on every reply.
The claim said nothing is emitted when the code is zero. -/
theorem C3_check_errors_always_warns :
    check_errors "0,No error"
      = Except.ok
          [⟨LogLevel.warning,
            "ThorlabsPM100USB powermeter: No error (Error Code: 0)"⟩] := by
  rfl

/-- Claim C4: with the device reporting zero-adjustment state 1 on every
poll and the clock already past start plus timeout, set_zero nevertheless
exits after the first poll with no sleep, no abort command and no log
entry: the parsed state is a Python float and the loop condition compares
it against the int literal 1 with the identity operator, which is always
false for a float.  The claim said the loop keeps polling while the state
is 1 and aborts with a warning on timeout. -/
theorem C4_set_zero_exits_immediately :
    set_zero stNone 0 60 [⟨"1", 100⟩, ⟨"1", 101⟩]
      = ZeroResult.finished
          ["SENS:CORR:COLLect:ZERO:INITiate", "SENS:CORR:COLLect:ZERO:STATe?"]
          [] 0 := by
  rfl

/-- Claim C5: on a power-capable, wavelength-settable sensor with 780 nm
well inside the valid range, measure_power raises UnboundLocalError before
sending any command: the wavelength setter it invokes reads its
not-yet-assigned local `wavelength` instead of the parameter `val`.  The
claim said it sends the wavelength-set command and then queries the
power. -/
theorem C5_measure_power_raises :
    measure_power stPW 400 1100 780 "5.0"
      = Except.error PyError.unboundLocalError := by
  rfl

/-- Claim C6: writing the wavelength attribute with the in-range value 780
on a wavelength-settable sensor raises UnboundLocalError and issues no
command: the first statement of the setter passes the unassigned local
`wavelength` to strict_range instead of the parameter `val`.  The claim
said exactly one SENSE:CORR:WAV command is sent. -/
theorem C6_wavelength_set_raises :
    wavelength_set stPW 400 1100 780
      = Except.error PyError.unboundLocalError := by
  rfl

/-- Claim C7: reading the wavelength attribute at the device reply 780.0
sends the single query SENSE:CORR:WAV? but returns None: the getter body
indexes the parsed reply (whose first scalar is the float 780) and
discards it, having no return statement.  The claim said the first parsed
scalar is returned. -/
theorem C7_wavelength_get_returns_none :
    wavelength_get "780.0" = Except.ok (["SENSE:CORR:WAV?"], PyVal.none) ∧
      valuesParse "780.0" = [PyVal.float 780] := by
  constructor
  · rfl
  · simp +decide [valuesParse, pySplit, pySplitAux, parseFloat, digitsToNat,
      digitsToNatAux, charDigit, String.toList]

/-- Claim C8: every operation invoked after construction (measurement
reads, the wavelength write, measure_power, set_zero, check_errors) leaves
the sensor identity fields and the capability flags unchanged: none of the
corresponding method bodies assigns any of these attributes, so an
arbitrary session of operations ends in the state it started in. -/
theorem C8_session_frame :
    ∀ (st : PMState) (ops : List Op),
      (runSession st ops).sensor_name = st.sensor_name ∧
      (runSession st ops).sensor_sn = st.sensor_sn ∧
      (runSession st ops).sensor_cal_msg = st.sensor_cal_msg ∧
      (runSession st ops).sensor_type = st.sensor_type ∧
      (runSession st ops).sensor_subtype = st.sensor_subtype ∧
      (runSession st ops).is_power = st.is_power ∧
      (runSession st ops).is_energy = st.is_energy ∧
      (runSession st ops).resp_settable = st.resp_settable ∧
      (runSession st ops).wavelength_settable = st.wavelength_settable ∧
      (runSession st ops).tau_settable = st.tau_settable ∧
      (runSession st ops).temperature_sens = st.temperature_sens := by
  have key : ∀ (ops : List Op) (st : PMState), runSession st ops = st := by
    intro ops
    induction ops with
    | nil => intro st; rfl
    | cons op rest ih =>
      intro st
      have hstep : (step st op).fst = st := by cases op <;> rfl
      show List.foldl (fun s o => (step s o).fst) ((step st op).fst) rest = st
      rw [hstep]
      exact ih st
  intro st ops
  rw [key]
  exact ⟨rfl, rfl, rfl, rfl, rfl, rfl, rfl, rfl, rfl, rfl, rfl⟩

/-- Claim C9: whenever construction gets past check_errors and the sensor
reply decodes to a state whose is_power flag is set, the constructor
attempts self.power = Power(self) against the read-only class property
power (a getter with no setter), so it raises AttributeError: a
power-capable sensor can never be successfully constructed. -/
theorem C9_init_power_raises :
    ∀ (errReply idnReply : String) (lg : List LogEntry) (st : PMState),
      check_errors errReply = Except.ok lg →
      sensor idnReply = Except.ok st →
      st.is_power = true →
      pm_init errReply idnReply = Except.error PyError.attributeError := by
  intro er ir lg st h1 h2 h3
  simp [pm_init, h1, h2, h3]

/-- Witness for C9 at a concrete session: a clean error queue and a sensor
identification whose flag field is 1 (the power bit). -/
theorem C9_init_power_raises_witness :
    pm_init "0,No error" "S120C,12345,18-Jun-2020,Photodiode,SiPD,1"
      = Except.error PyError.attributeError :=
  C9_init_power_raises _ _
    [⟨LogLevel.warning, "ThorlabsPM100USB powermeter: No error (Error Code: 0)"⟩]
    ⟨"S120C", "12345", "18-Jun-2020", "Photodiode", "SiPD",
     true, false, false, false, false, false⟩
    (by rfl) (by rfl) rfl
